import Mathlib

/-!
# Verification of the entity simulation core (pilot combat / update / registry / AI tasks)

Shallow embedding of the C sources of the spacecraft-combat runtime:

* `pilot_hit` (combat resolver, part_002 lines 1239-1358) together with its
  helpers `pilot_isHostile`, `pilot_rmHostile`, `pilot_dead`;
* `pilot_shootWeapon`'s fire-rate rationing logic (part_002 lines 1067-1212);
* the energy regeneration step of `pilot_update` (part_002 lines 1730-1741)
  and the `energy_tau` recomputation of `pilot_calcStats` (line 2568);
* `pilot_hyperspace` (part_002 lines 1806-1885);
* the registry operations `pilot_getStackPos`, creation (`pilot_init` id
  generation), `pilot_destroy`, `pilots_clean`;
* the mass bookkeeping of the cargo ledger (`pilot_addCargoRaw`,
  `pilot_rmCargoRaw`, `pilot_calcCargo`, `pilot_calcStats`) and of the
  launcher / fighter-bay branches of `pilot_shootWeapon`;
* the AI task-stack bindings `aiL_pushtask` / `aiL_poptask` (part_001).

Doubles are idealised as exact rationals (`ℚ`); the energy claim, which
involves the exponential function, is stated over `ℝ` through a parameterised
regeneration step.  Calls into external collaborators (libm `pow`, the faction
service's `areEnemies`, the damage-type conversion `outfit_calcDamage` whose
definition lives in `outfit.c`, a file absent from these sources) enter the
model as explicit parameters.
-/

namespace Naev

/-! ## Basic data -/

/-- A 2-d vector (the `Vector2d` of the physics layer). -/
structure Vec2 where
  x : ℚ
  y : ℚ
deriving Repr, DecidableEq

/-- The externally owned physics body; only the fields `pilot_hit` reads or
writes (`vel`, `mass`) are modelled. -/
structure Solid where
  vel : Vec2
  mass : ℚ
deriving Repr, DecidableEq

/-- The dynamic pilot flags that the combat resolver touches
(`PILOT_DISABLED`, `PILOT_HOSTILE`, `PILOT_FRIENDLY`, `PILOT_DEAD`,
`PILOT_HYP_PREP`, `PILOT_HYP_BEGIN`, `PILOT_HYPERSPACE`). -/
structure PFlags where
  disabled : Bool
  hostile : Bool
  friendly : Bool
  dead : Bool
  hypPrep : Bool
  hypBegin : Bool
  hyperspace : Bool
deriving Repr, DecidableEq

/-- The pilot state read and written by `pilot_hit`.  `ship_armour` and
`ship_mass` are the immutable ship template's `armour` and `mass` fields;
`isPlayer` models the `p != player` / `p->id == PLAYER_ID` comparisons. -/
structure Pilot where
  isPlayer : Bool
  shield : ℚ
  armour : ℚ
  shield_max : ℚ
  armour_max : ℚ
  energy : ℚ
  ship_armour : ℚ
  ship_mass : ℚ
  solid : Solid
  flags : PFlags
deriving Repr, DecidableEq

/-- Global combat bookkeeping: `player_enemies` (count of pilots hostile to
the player) and `player_crating` (the player's combat rating). -/
structure Globals where
  player_enemies : ℤ
  player_crating : ℤ
deriving Repr, DecidableEq

/-- `PILOT_DISABLED_ARMOR` (pilot.h line 36): armour fraction below which a
pilot becomes disabled. -/
def PILOT_DISABLED_ARMOR : ℚ := 3/10

/-- C cast of a floating value to `int`: truncation toward zero. -/
def ctrunc (x : ℚ) : ℤ := if 0 ≤ x then ⌊x⌋ else ⌈x⌉

/-! ## Hostility helpers (part_002 lines 552-560, 841-854) -/

/-- `pilot_isHostile`: friendly flag wins, otherwise the hostile flag or the
faction service's `areEnemies(FACTION_PLAYER, p->faction)` (passed in as
`enemies`). -/
def pilot_isHostile (p : Pilot) (enemies : Bool) : Bool :=
  if p.flags.friendly then false
  else p.flags.hostile || enemies

/-- `pilot_rmHostile`: if the hostile flag is set, decrement `player_enemies`
(unless the pilot is disabled), clear the flag, and clamp the counter at 0. -/
def pilot_rmHostile (p : Pilot) (g : Globals) : Pilot × Globals :=
  if p.flags.hostile then
    let e := if !p.flags.disabled then g.player_enemies - 1 else g.player_enemies
    let e := if e ≤ 0 then 0 else e
    ({ p with flags := { p.flags with hostile := false } }, { g with player_enemies := e })
  else (p, g)

/-- `pilot_dead` (part_002 lines 1366-1390): no-op when already dead,
otherwise clears the hyperspace phase flags, sets `PILOT_DEAD` and reports
that the death hook ran.  (The death timers it also sets are not modelled.) -/
def pilot_dead (p : Pilot) : Pilot × Bool :=
  if p.flags.dead then (p, false)
  else
    ({ p with flags := { p.flags with
        dead := true
        hypPrep := false
        hypBegin := false
        hyperspace := false } }, true)

/-! ## The combat resolver `pilot_hit` (part_002 lines 1239-1358)

`outfit_calcDamage` is defined in `outfit.c`, which is not part of these
sources (only its declaration in outfit.h is); its three outputs
`damage_shield`, `damage_armour`, `knockback` therefore enter the model as
parameters `ds`, `da`, `kb`.  The shooter lookup `pilot_get(shooter)`
together with the `pshooter->faction == FACTION_PLAYER` test is abstracted
to `shooterPF : Option Bool` (`none` = lookup failed, `some b` = found with
`b` recording whether the shooter is player faction), and the libm call
`pow(p->ship->mass, 0.4)` to the parameter `powm`. -/

/-- Result of `pilot_hit`: final pilot and global state, the returned real
damage, which hooks ran, and the reputation delta handed to the external
faction service (`0` when `faction_modPlayer` was not called). -/
structure HitResult where
  p : Pilot
  g : Globals
  dmg : ℚ
  disableHook : Bool
  deathHook : Bool
  factionPenalty : ℤ
deriving Repr, DecidableEq

/-- The shield/armour depletion chain of `pilot_hit` (lines 1260-1292):
returns the pilot after depletion, the real damage `dmg` and the local
`dam_mod`. -/
def pilot_hit_damage (p : Pilot) (isEmp : Bool) (ds da : ℚ) :
    Pilot × ℚ × ℚ :=
  if p.flags.disabled ∧ isEmp then
    (p, 0, 0)
  else if 0 < p.shield - ds then
    ({ p with shield := p.shield - ds }, ds, ds / p.shield_max)
  else if 0 < p.shield then
    ({ p with armour := p.armour - (1 - p.shield / ds) * da, shield := 0 },
     p.shield + (1 - p.shield / ds) * da,
     (ds + da) / ((p.shield_max + p.armour_max) / 2))
  else if 0 < p.armour then
    ({ p with armour := p.armour - da }, da, 0)
  else
    (p, 0, 0)

/-- The disabled transition of `pilot_hit` (lines 1294-1317): on first
crossing below `PILOT_DISABLED_ARMOR` of the ship template's base armour
(non-player pilots only) it clears the hostile bookkeeping, restores the
raw hostile flag when the pilot tested hostile (the re-targetability hack),
credits a player-faction shooter's combat rating with
`2 * (int)(pow(mass, 0.4) - 1)`, sets `PILOT_DISABLED` and runs the disable
hook. -/
def pilot_hit_disable (p : Pilot) (g : Globals) (shooterPF : Option Bool)
    (enemies : Bool) (powm : ℚ) : Pilot × Globals × Bool :=
  if ¬p.flags.disabled ∧ ¬p.isPlayer ∧
      p.armour < PILOT_DISABLED_ARMOR * p.ship_armour then
    let h := pilot_isHostile p enemies
    let pg := pilot_rmHostile p g
    let p1 := if h then { pg.1 with flags := { pg.1.flags with hostile := true } } else pg.1
    let g1 :=
      if shooterPF = some true then
        { pg.2 with player_crating := pg.2.player_crating + 2 * ctrunc (powm - 1) }
      else pg.2
    ({ p1 with flags := { p1.flags with disabled := true } }, g1, true)
  else (p, g, false)

/-- The death block of `pilot_hit` (lines 1319-1347): clamps armour at 0,
zeroes `dam_mod`, runs `pilot_dead` once and applies the faction reputation
penalty `-(int)(2 * (pow(mass, 0.4) - 1))` for a player-faction shooter;
otherwise, with shield depleted, recomputes `dam_mod` from the armour
damage. -/
def pilot_hit_dead (p : Pilot) (dam_mod da : ℚ) (shooterPF : Option Bool)
    (powm : ℚ) : Pilot × ℚ × Bool × ℤ :=
  if p.armour ≤ 0 then
    let p1 := { p with armour := 0 }
    if ¬p1.flags.dead then
      let pd := pilot_dead p1
      let pen : ℤ := if shooterPF = some true then ctrunc (2 * (powm - 1)) else 0
      (pd.1, 0, pd.2, pen)
    else (p1, 0, false, 0)
  else if p.shield ≤ 0 then
    (p, da / p.armour_max, false, 0)
  else
    (p, dam_mod, false, 0)

/-- The knockback impulse of `pilot_hit` (lines 1350-1355), applied when the
hitting solid is non-NULL. -/
def pilot_hit_knockback (p : Pilot) (w : Option Solid) (kb dam_mod : ℚ) :
    Pilot :=
  match w with
  | none => p
  | some ws =>
    { p with solid := { p.solid with vel :=
        ⟨p.solid.vel.x + kb * (ws.vel.x * (dam_mod / 9 + ws.mass / p.solid.mass / 6)),
         p.solid.vel.y + kb * (ws.vel.y * (dam_mod / 9 + ws.mass / p.solid.mass / 6))⟩ } }

/-- `pilot_hit` (part_002 lines 1239-1358), assembled from its four blocks. -/
def pilot_hit (p : Pilot) (g : Globals) (w : Option Solid) (isEmp : Bool)
    (ds da kb : ℚ) (shooterPF : Option Bool) (enemies : Bool) (powm : ℚ) :
    HitResult :=
  let d := pilot_hit_damage p isEmp ds da
  let dis := pilot_hit_disable d.1 g shooterPF enemies powm
  let dd := pilot_hit_dead dis.1 d.2.2 da shooterPF powm
  let pk := pilot_hit_knockback dd.1 w kb dd.2.1
  { p := pk, g := dis.2.1, dmg := d.2.1,
    disableHook := dis.2.2, deathHook := dd.2.2.1, factionPenalty := dd.2.2.2 }

/-! ## The weapon firing scheduler `pilot_shootWeapon` (part_002 lines 1067-1212)

Only the fields the gate reads are modelled.  `outfit_delay`, `outfit_energy`
and the `outfit_is*` kind tests are data of the outfit template. -/

/-- Outfit module kinds distinguished by `pilot_shootWeapon`. -/
inductive OutfitKind where
  | bolt
  | beam
  | launcher
  | fighterBay
deriving Repr, DecidableEq

/-- The outfit template data read by the firing gate. -/
structure Outfit where
  kind : OutfitKind
  delay : ℚ
  energy : ℚ
deriving Repr, DecidableEq

/-- A `PilotOutfitSlot` as read by the rationing scan: the (possibly empty)
outfit, the cooldown timer, and the launcher ammo state. -/
structure HSlot where
  outfit : Option Outfit
  timer : ℚ
  ammoOutfit : Bool
  ammoQty : ℤ
deriving Repr, DecidableEq

/-- One step of the sibling scan of `pilot_shootWeapon` (lines 1085-1108):
accumulates the group size `q` and the maximum sibling timer `mint`.  Note
that the launcher ammo test reads the firing slot `w`, not the scanned
slot, exactly as the C does. -/
def scanStep (wo : Outfit) (w : HSlot) (acc : ℕ × Option ℚ) (s : HSlot) :
    ℕ × Option ℚ :=
  match s.outfit with
  | none => acc
  | some so =>
    if so.delay ≠ wo.delay then acc
    else if wo.kind = OutfitKind.launcher ∧ (¬w.ammoOutfit ∨ w.ammoQty ≤ 0) then acc
    else
      match acc.2 with
      | none => (acc.1 + 1, some s.timer)
      | some m => (acc.1 + 1, some (if m < s.timer then s.timer else m))

/-- The sibling scan over the high outfit slots. -/
def weaponScan (wo : Outfit) (w : HSlot) (highs : List HSlot) : ℕ × Option ℚ :=
  highs.foldl (scanStep wo w) (0, none)

/-- The firing gate of `pilot_shootWeapon` (lines 1076-1117): `true` exactly
when control reaches the type-specific firing sections.  The cooldown test,
the beam bypass, and the `delay * (q-1)/q` rationing test. -/
def pilot_shootWeapon_gate (wo : Outfit) (w : HSlot) (highs : List HSlot) :
    Bool :=
  if 0 < w.timer then false
  else if wo.kind = OutfitKind.beam then true
  else
    let r := weaponScan wo w highs
    if r.1 = 0 then false
    else
      match r.2 with
      | none => false
      | some mint => ¬(wo.delay * (((r.1 : ℚ) - 1) / (r.1 : ℚ)) < mint)

/-- Specification-style eligibility predicate for the scan: the slots that
contribute to the delay group of `w`. -/
def eligibleSibling (wo : Outfit) (w : HSlot) (s : HSlot) : Bool :=
  match s.outfit with
  | none => false
  | some so =>
    decide (so.delay = wo.delay) &&
      !(decide (wo.kind = OutfitKind.launcher) && (!w.ammoOutfit || decide (w.ammoQty ≤ 0)))

/-- Specification-style running maximum for the sibling scan's `mint`. -/
def omax : Option ℚ → ℚ → Option ℚ
  | none, t => some t
  | some m, t => some (if m < t then t else m)

/-! ### A two-gun (and a three-gun) bolt simulation

The per-tick driver: `pilot_update` decrements every positive slot timer by
`dt` (part_002 lines 1611-1615), then the shoot request runs
`pilot_shootWeapon` on each slot in array order; a slot that passes the gate
and the bolt energy check fires and adds `delay` to its timer (line 1209). -/

/-- The bolt-weapon firing step for slot timers `ts` (all slots carry the
same bolt outfit `wo`): processes slots left to right, firing each slot
whose gate passes and whose energy cost is payable, updating its timer in
place.  Returns the new timers, the remaining pilot energy and the fire
flags. -/
def shootVolley (wo : Outfit) (energy : ℚ) (ts : List ℚ) :
    List ℚ × ℚ × List Bool :=
  let n := ts.length
  (List.range n).foldl
    (fun (acc : List ℚ × ℚ × List Bool) i =>
      let slots := acc.1.map (fun t => HSlot.mk (some wo) t false 0)
      let w := HSlot.mk (some wo) (acc.1.getD i 0) false 0
      if pilot_shootWeapon_gate wo w slots ∧ ¬(acc.2.1 < wo.energy) then
        (acc.1.set i (acc.1.getD i 0 + wo.delay), acc.2.1 - wo.energy,
         acc.2.2 ++ [true])
      else (acc.1, acc.2.1, acc.2.2 ++ [false]))
    (ts, energy, [])

/-- Timer decrement of `pilot_update` (lines 1611-1615): only positive
timers are decremented. -/
def decTimers (dt : ℚ) (ts : List ℚ) : List ℚ :=
  ts.map (fun t => if 0 < t then t - dt else t)

/-- `n` ticks of the bolt simulation: each tick decrements the timers,
then fires a volley; returns the final timers and the per-tick fire flags
(most recent tick last).  The first volley happens before any decrement
(tick 0 at time 0). -/
def boltSim (wo : Outfit) (energy dt : ℚ) (ts : List ℚ) :
    ℕ → List ℚ × List (List Bool)
  | 0 =>
    let v := shootVolley wo energy ts
    (v.1, [v.2.2])
  | n + 1 =>
    let prev := boltSim wo energy dt ts n
    let v := shootVolley wo energy (decTimers dt prev.1)
    (v.1, prev.2 ++ [v.2.2])

/-- The bolt outfit used by the stagger scenario: delay 1.0 s, no energy
cost. -/
def bolt1 : Outfit := ⟨OutfitKind.bolt, 1, 0⟩

/-! ## Energy regeneration (part_002 lines 1730-1741, 2567-2568)

The update step is generic over the scalar field so that the exponential
claim can be stated over `ℝ` while every other development stays in `ℚ`;
`expTerm` stands for the libm value `exp(-dt / energy_tau)`. -/

/-- The energy block of `pilot_update`: RC-circuit charge step followed by
the upper clamp (lines 1730-1731 and 1739-1741). -/
def energyStep {α : Type} [LinearOrderedField α]
    (energy_max energy expTerm : α) : α :=
  let e := energy + (energy_max - energy) * (1 - expTerm)
  min e energy_max

/-- `pilot_calcStats` line 2568: `energy_tau = energy_max / energy_regen`. -/
def calc_energy_tau {α : Type} [LinearOrderedField α]
    (energy_max energy_regen : α) : α :=
  energy_max / energy_regen

/-! ## The hyperspace state machine `pilot_hyperspace` (part_002 lines 1806-1885)

Phases are encoded in the C by the flag pair (`PILOT_HYPERSPACE`,
`PILOT_HYP_BEGIN`); `pilots_update` runs `pilot_hyperspace` while
`PILOT_HYP_PREP` is set, and `pilot_update` afterwards decrements `ptimer`
by `dt` (line 1606).  `vmod` is the speed `VMOD(p->solid->vel)` and `diff`
the facing error returned by `pilot_face`, both read from the external
physics body.  `MIN_VEL_ERR` / `MAX_DIR_ERR` are configuration constants
defined outside these sources and are therefore parameters. -/

/-- Hyperspace phase: `preparing` (neither flag), `warming`
(`PILOT_HYP_BEGIN`), `intransit` (`PILOT_HYPERSPACE`), and `gone` (the
pilot was flagged `PILOT_DELETE` and the jump hook ran). -/
inductive HypPhase where
  | preparing
  | warming
  | intransit
  | gone
deriving Repr, DecidableEq

/-- Hyperspace-relevant pilot state. -/
structure HypState where
  phase : HypPhase
  ptimer : ℚ
deriving Repr, DecidableEq

/-- One call of `pilot_hyperspace` for a non-player pilot (lines 1806-1885,
ignoring the thrust/turn intents it sets on the solid). -/
def pilot_hyperspace (minVelErr maxDirErr : ℚ) (s : HypState)
    (vmod diff : ℚ) : HypState :=
  match s.phase with
  | HypPhase.intransit =>
    if s.ptimer < 0 then { s with phase := HypPhase.gone }
    else s
  | HypPhase.warming =>
    if s.ptimer < 0 then
      { phase := HypPhase.intransit, ptimer := HYPERSPACE_FLY_DELAY }
    else s
  | HypPhase.preparing =>
    if minVelErr < vmod then s
    else if |diff| < maxDirErr then
      { phase := HypPhase.warming, ptimer := HYPERSPACE_ENGINE_DELAY }
    else s
  | HypPhase.gone => s
where
  /-- `HYPERSPACE_ENGINE_DELAY` (pilot.h line 23). -/
  HYPERSPACE_ENGINE_DELAY : ℚ := 3
  /-- `HYPERSPACE_FLY_DELAY` (pilot.h line 24). -/
  HYPERSPACE_FLY_DELAY : ℚ := 5

/-- One simulation tick for a hyperspacing pilot: `pilot_hyperspace`
followed by the `ptimer -= dt` of `pilot_update`. -/
def hypTick (minVelErr maxDirErr : ℚ) (s : HypState) (vmod diff dt : ℚ) :
    HypState :=
  let s1 := pilot_hyperspace minVelErr maxDirErr s vmod diff
  { s1 with ptimer := s1.ptimer - dt }

/-- Trajectory of `hypTick` under a stream of per-tick inputs
`(vmod, diff, dt)`. -/
def hypTraj (minVelErr maxDirErr : ℚ) (inp : ℕ → ℚ × ℚ × ℚ)
    (s0 : HypState) : ℕ → HypState
  | 0 => s0
  | n + 1 =>
    let s := hypTraj minVelErr maxDirErr inp s0 n
    hypTick minVelErr maxDirErr s (inp n).1 (inp n).2.1 (inp n).2.2

/-! ## The entity registry (part_002 lines 47, 299-314, 2959-2971, 3100-3113,
3285-3300, 3321-3337)

The backing array `pilot_stack` is modelled by its list of ids; the pilots
themselves carry no further data relevant to the registry claims.
`pilot_id` is the monotonic id counter (initialised to `PLAYER_ID`, line
47); ids of non-player pilots are generated by `++pilot_id`
(`pilot_init` line 2971) and the new pilot is appended (`pilot_create`
lines 3106-3107). -/

/-- `PLAYER_ID` (pilot.h line 19). -/
def PLAYER_ID : ℕ := 1

/-- The registry state: the id-ordered backing array and the id counter. -/
structure Registry where
  stack : List ℕ
  counter : ℕ
deriving Repr, DecidableEq

/-- The recursive core of `pilot_getStackPos`'s binary search (lines
301-310): C ints are idealised as unbounded integers, which the code's own
comment on the `>> 1` justifies ("for impossible overflow"); `>> 1` on a
non-negative int is floor division by 2. -/
def pilot_getStackPos_go (ids : List ℕ) (id : ℕ) (l h : ℤ) : ℤ :=
  if hlh : l ≤ h then
    let m := (l + h) / 2
    match ids[m.toNat]? with
    | some v =>
      if id < v then pilot_getStackPos_go ids id l (m - 1)
      else if v < id then pilot_getStackPos_go ids id (m + 1) h
      else m
    | none => -1
  else -1
termination_by (h + 1 - l).toNat
decreasing_by
  · omega
  · omega

/-- `pilot_getStackPos` (lines 299-314): position of `id` in the stack, or
`-1` when absent. -/
def pilot_getStackPos (ids : List ℕ) (id : ℕ) : ℤ :=
  pilot_getStackPos_go ids id 0 (ids.length - 1)

/-- Creation of a non-player pilot (`pilot_create` + `pilot_init`): the id
counter is pre-incremented and the new pilot appended to the stack. -/
def registry_create (r : Registry) : Registry :=
  ⟨r.stack ++ [r.counter + 1], r.counter + 1⟩

/-- `pilot_destroy` (lines 3285-3300): locate the pilot's position and
shift the tail down one slot (`List.erase` removes the first — under
sortedness the unique — occurrence). -/
def registry_destroy (r : Registry) (pid : ℕ) : Registry :=
  ⟨r.stack.erase pid, r.counter⟩

/-- `pilots_clean` (lines 3321-3337) with the player present: every other
pilot is freed, the player is moved to the privileged slot 0 and the stack
size set to 1. -/
def registry_clean (r : Registry) : Registry :=
  ⟨[PLAYER_ID], r.counter⟩

/-- The reachable registry states: the player is created first (into the
empty registry, with the reserved id and the counter at its initial value
`PLAYER_ID`), non-player creations append counter-generated ids, pilots
in the stack may be destroyed, and the bulk cleanup runs while the player
is present. -/
inductive Reach : Registry → Prop where
  | init : Reach ⟨[PLAYER_ID], PLAYER_ID⟩
  | create {r : Registry} : Reach r → Reach (registry_create r)
  | destroy {r : Registry} {pid : ℕ} : Reach r → pid ∈ r.stack →
      Reach (registry_destroy r pid)
  | clean {r : Registry} : Reach r → PLAYER_ID ∈ r.stack →
      Reach (registry_clean r)

/-! ## Mass bookkeeping (part_002 lines 1176-1202, 2586-2590, 2597-2600,
2668-2718, 2859-2901)

Only the mass-bearing fields are modelled.  `pilot_updateMass` (lines
2597-2600) recomputes the turn rate from `solid->mass` but does **not**
recompute `solid->mass` itself; every cargo path updates `solid->mass`
by hand before calling it. -/

/-- The mass-bearing state of a pilot. -/
structure MassState where
  ship_mass : ℚ
  mass_cargo : ℚ
  mass_outfit : ℚ
  cargo_free : ℚ
  solid_mass : ℚ
deriving Repr, DecidableEq

/-- The mass invariant of the data model: physics mass = hull + cargo +
outfit. -/
def massInv (s : MassState) : Prop :=
  s.solid_mass = s.ship_mass + s.mass_cargo + s.mass_outfit

/-- The mass bookkeeping of `pilot_addCargoRaw` (lines 2682-2691 resp.
2702-2715): the added quantity is clamped to the free space and counted
into `cargo_free`, `mass_cargo` and `solid->mass`. -/
def pilot_addCargoRaw_mass (s : MassState) (quantity : ℚ) : MassState :=
  let q := if s.cargo_free < quantity then s.cargo_free else quantity
  { s with
    cargo_free := s.cargo_free - q
    mass_cargo := s.mass_cargo + q
    solid_mass := s.solid_mass + q }

/-- The mass bookkeeping of `pilot_rmCargoRaw` (lines 2893-2896) /
`pilot_rmMissionCargo` (lines 2825-2827) for an actually removed quantity
`q`. -/
def pilot_rmCargoRaw_mass (s : MassState) (q : ℚ) : MassState :=
  { s with
    cargo_free := s.cargo_free + q
    mass_cargo := s.mass_cargo - q
    solid_mass := s.solid_mass - q }

/-- `pilot_calcStats` lines 2586-2587 (same recomputation in
`pilot_calcCargo`, line 2762): `solid->mass = ship->mass + mass_cargo +
mass_outfit`. -/
def pilot_calcStats_mass (s : MassState) : MassState :=
  { s with solid_mass := s.ship_mass + s.mass_cargo + s.mass_outfit }

/-- The launcher branch of `pilot_shootWeapon` (lines 1180-1182; the
fighter-bay branch, lines 1198-1201, is identical in its mass effect):
the fired ammo's mass leaves `mass_outfit`, then only `pilot_updateMass`
runs — `solid->mass` is left untouched. -/
def pilot_shootWeapon_launcher_mass (s : MassState) (ammoMass : ℚ) :
    MassState :=
  { s with mass_outfit := s.mass_outfit - ammoMass }

/-! ## The behavior task stack (part_001 lines 1031-1087)

A task chain `Task*` is modelled as a list (head = current task). -/

/-- A behavior task: a name and an optional integer datum. -/
structure Task where
  name : String
  dat : Option ℤ
deriving Repr, DecidableEq

/-- The tail-insertion loop of `aiL_pushtask` (lines 1056-1057):
`for (pointer = head; pointer->next != NULL; pointer = pointer->next);
pointer->next = t;`.  On the empty stack the loop condition dereferences
the NULL head — modelled as `none`. -/
def taskTailAppend (t : Task) : List Task → Option (List Task)
  | [] => none
  | [x] => some [x, t]
  | x :: y :: xs => (taskTailAppend t (y :: xs)).map (x :: ·)

/-- `aiL_pushtask` (lines 1031-1065): `pos = 1` queues at the tail via the
unguarded traversal, any other `pos` prepends at the head. -/
def aiL_pushtask (pos : ℤ) (t : Task) (stack : List Task) :
    Option (List Task) :=
  if pos = 1 then taskTailAppend t stack
  else some (t :: stack)

/-- `aiL_poptask` (lines 1072-1087): with an empty stack it logs and
returns normally leaving the stack untouched; otherwise it unlinks and
frees exactly the head.  The boolean records whether a task was freed. -/
def aiL_poptask (stack : List Task) : List Task × Bool :=
  match stack with
  | [] => (stack, false)
  | _ :: ts => (ts, true)

/-! ## Theorems -/

/-- Tail insertion reaches the end of a non-empty chain and links the new
task there. -/
theorem taskTailAppend_cons (t x : Task) (xs : List Task) :
    taskTailAppend t (x :: xs) = some ((x :: xs) ++ [t]) := by
  induction xs generalizing x with
  | nil => rfl
  | cons y ys ih => simp [taskTailAppend, ih y]

/-- C9: invoking `popTask` on an entity whose task stack is empty is a safe
no-op — the stack is returned unchanged, nothing is freed (the flag is
`false`), and the call returns normally rather than failing. -/
theorem aiL_poptask_empty_noop :
    aiL_poptask ([] : List Naev.Task) = ([], false) := rfl

/-- C10: head insertion (`pos ≠ 1`) of `pushTask` is total on every stack,
including the empty one, and produces the new head; tail insertion
(`pos = 1`) is well-defined (appends at the end) exactly on non-empty
stacks, while on the empty stack the unguarded traversal dereferences the
NULL head (`none`). -/
theorem aiL_pushtask_totality (t : Task) (stack : List Task)
    (h : stack ≠ []) :
    (∀ s : List Task, aiL_pushtask 0 t s = some (t :: s)) ∧
    aiL_pushtask 1 t stack = some (stack ++ [t]) ∧
    aiL_pushtask 1 t [] = none := by
  refine ⟨fun s => rfl, ?_, rfl⟩
  match stack, h with
  | x :: xs, _ => simp [aiL_pushtask, taskTailAppend_cons]

/-- Witness for C10 at a concrete one-task stack. -/
theorem aiL_pushtask_totality_witness :
    ([⟨"control", none⟩] : List Naev.Task) ≠ [] ∧
    (∀ s : List Naev.Task, aiL_pushtask 0 ⟨"attack", some 7⟩ s =
        some (⟨"attack", some 7⟩ :: s)) ∧
    aiL_pushtask 1 ⟨"attack", some 7⟩ [⟨"control", none⟩] =
      some ([⟨"control", none⟩] ++ [⟨"attack", some 7⟩]) ∧
    aiL_pushtask 1 ⟨"attack", some 7⟩ [] = none := by
  refine ⟨by simp, aiL_pushtask_totality ⟨"attack", some 7⟩ [⟨"control", none⟩] (by simp)⟩

/-- Cargo addition keeps the mass invariant (supporting fact for the mass
claim). -/
theorem pilot_addCargoRaw_massInv (s : MassState) (q : ℚ) (h : massInv s) :
    massInv (pilot_addCargoRaw_mass s q) := by
  unfold massInv at h ⊢
  unfold pilot_addCargoRaw_mass
  dsimp only
  split_ifs <;> linarith

/-- Cargo removal keeps the mass invariant (supporting fact for the mass
claim). -/
theorem pilot_rmCargoRaw_massInv (s : MassState) (q : ℚ) (h : massInv s) :
    massInv (pilot_rmCargoRaw_mass s q) := by
  unfold massInv at h ⊢
  unfold pilot_rmCargoRaw_mass
  dsimp only
  linarith

/-- C3 (code bug): the claimed invariant `solid->mass = hull + cargo +
outfit` holds before the shot (hull 100, no cargo, outfit 20, physics mass
120) and the launcher branch of `pilot_shootWeapon` removes the fired
ammo's 5 mass units from `mass_outfit`, but `solid->mass` stays 120:
`pilot_updateMass` recomputes only the turn rate, so the physics mass no
longer equals hull + cargo + outfit after the mutation, contradicting the
invariant the cargo paths and `pilot_calcStats` carefully maintain. -/
theorem pilot_shootWeapon_launcher_mass_bug :
    massInv ⟨100, 0, 20, 50, 120⟩ ∧
    pilot_shootWeapon_launcher_mass ⟨100, 0, 20, 50, 120⟩ 5 =
      ⟨100, 0, 15, 50, 120⟩ ∧
    ¬ massInv (pilot_shootWeapon_launcher_mass ⟨100, 0, 20, 50, 120⟩ 5) := by
  refine ⟨by norm_num [massInv], by norm_num [pilot_shootWeapon_launcher_mass],
    by norm_num [massInv, pilot_shootWeapon_launcher_mass]⟩

/-- C6: for a live pilot the energy update is the RC charge step
`energy += (energy_max - energy) * (1 - exp(-dt/τ))` followed by the upper
clamp, with `τ = energy_max / energy_regen` from `pilot_calcStats`; from
`energy = 0`, a single update with `dt = τ` charges to
`energy_max * (1 - e⁻¹)` (≈ 63.2 % of max). -/
theorem pilot_update_energy_rc_charge (emax eregen : ℝ)
    (hmax : 0 < emax) (hregen : 0 < eregen) :
    energyStep emax 0
        (Real.exp (-(calc_energy_tau emax eregen / calc_energy_tau emax eregen)))
      = emax * (1 - Real.exp (-1)) := by
  have htau : 0 < calc_energy_tau emax eregen := div_pos hmax hregen
  rw [calc_energy_tau] at htau ⊢
  rw [div_self htau.ne']
  unfold energyStep
  have he : (0:ℝ) + (emax - 0) * (1 - Real.exp (-1)) = emax * (1 - Real.exp (-1)) := by
    ring
  rw [he, min_eq_left]
  nlinarith [Real.exp_pos (-1 : ℝ)]

/-- Witness for C6 at `energy_max = 1`, `energy_regen = 1`. -/
theorem pilot_update_energy_rc_charge_witness :
    (0:ℝ) < 1 ∧
    energyStep (1:ℝ) 0 (Real.exp (-(calc_energy_tau 1 1 / calc_energy_tau 1 1)))
      = 1 * (1 - Real.exp (-1)) :=
  ⟨one_pos, pilot_update_energy_rc_charge 1 1 one_pos one_pos⟩

/-- C7: (1) a Preparing pilot advances to Warming in a tick only when its
speed does not exceed `MIN_VEL_ERR` and its facing error is strictly within
`MAX_DIR_ERR`; (2) a Preparing pilot whose facing error never gets within
the tolerance never reaches Warming along any input trajectory; (3) a
Warming pilot advances to InTransit exactly when the engine warmup timer
has expired (`ptimer < 0`). -/
theorem pilot_hyperspace_phase_transitions (mv md : ℚ) :
    (∀ (s : HypState) (vmod diff dt : ℚ), s.phase = HypPhase.preparing →
      (hypTick mv md s vmod diff dt).phase = HypPhase.warming →
      vmod ≤ mv ∧ |diff| < md) ∧
    (∀ (inp : ℕ → ℚ × ℚ × ℚ) (s0 : HypState), s0.phase = HypPhase.preparing →
      (∀ n, md ≤ |(inp n).2.1|) →
      ∀ n, (hypTraj mv md inp s0 n).phase ≠ HypPhase.warming) ∧
    (∀ (s : HypState) (vmod diff : ℚ), s.phase = HypPhase.warming →
      ((pilot_hyperspace mv md s vmod diff).phase = HypPhase.intransit ↔
        s.ptimer < 0)) := by
  refine ⟨?_, ?_, ?_⟩
  · intro s vmod diff dt hs hw
    simp only [hypTick, pilot_hyperspace, hs] at hw
    split_ifs at hw with h1 h2
    · simp [hs] at hw
    · exact ⟨le_of_not_lt h1, h2⟩
    · simp [hs] at hw
  · intro inp s0 hs0 hmis n
    have hprep : ∀ m, (hypTraj mv md inp s0 m).phase = HypPhase.preparing := by
      intro m
      induction m with
      | zero => exact hs0
      | succ k ih =>
        simp only [hypTraj, hypTick, pilot_hyperspace, ih]
        split_ifs with h1 h2
        · exact ih
        · exact absurd h2 (not_lt.mpr (hmis k))
        · exact ih
    simp [hprep n]
  · intro s vmod diff hs
    simp only [pilot_hyperspace, hs]
    split_ifs with h1
    · simp [h1]
    · simp [hs, h1]

/-- Witness for C7 at `MIN_VEL_ERR = 1`, `MAX_DIR_ERR = 1/100` with a
Warming pilot whose timer has expired. -/
theorem pilot_hyperspace_phase_transitions_witness :
    (⟨HypPhase.warming, -1⟩ : HypState).phase = HypPhase.warming ∧
    ((pilot_hyperspace 1 (1/100) ⟨HypPhase.warming, -1⟩ 0 0).phase
        = HypPhase.intransit ↔ (⟨HypPhase.warming, -1⟩ : HypState).ptimer < 0) :=
  ⟨rfl, (pilot_hyperspace_phase_transitions 1 (1/100)).2.2 ⟨HypPhase.warming, -1⟩ 0 0 rfl⟩

/-- Modelled from the spec: the knockback coefficient `outfit_calcDamage`
produces for `DAMAGE_TYPE_EMP`.  `outfit_calcDamage` lives in `outfit.c`,
which is missing from these sources; the spec states that EMP-type damage
against an already-disabled entity is a complete no-op, which holds of
`pilot_hit` exactly when the EMP knockback coefficient is zero. -/
def emp_knockback : ℚ := 0

/-- The disable block never changes the health fields or the solid. -/
theorem pilot_hit_disable_preserves (p : Pilot) (g : Globals)
    (shooterPF : Option Bool) (enemies : Bool) (powm : ℚ) :
    ((pilot_hit_disable p g shooterPF enemies powm).1.armour = p.armour ∧
     (pilot_hit_disable p g shooterPF enemies powm).1.shield = p.shield ∧
     (pilot_hit_disable p g shooterPF enemies powm).1.armour_max = p.armour_max ∧
     (pilot_hit_disable p g shooterPF enemies powm).1.shield_max = p.shield_max ∧
     (pilot_hit_disable p g shooterPF enemies powm).1.solid = p.solid) := by
  unfold pilot_hit_disable pilot_rmHostile
  split_ifs <;> simp_all [apply_ite]

/-- The death block clamps armour at zero and otherwise preserves it, and
never changes shield or the solid. -/
theorem pilot_hit_dead_armour (p : Pilot) (dam_mod da : ℚ)
    (shooterPF : Option Bool) (powm : ℚ) :
    ((pilot_hit_dead p dam_mod da shooterPF powm).1.armour
        = if p.armour ≤ 0 then 0 else p.armour) ∧
    (pilot_hit_dead p dam_mod da shooterPF powm).1.shield = p.shield ∧
    (pilot_hit_dead p dam_mod da shooterPF powm).1.solid = p.solid := by
  unfold pilot_hit_dead pilot_dead
  split_ifs <;> simp_all [apply_ite]

/-- The knockback block never changes the health fields. -/
theorem pilot_hit_knockback_preserves (p : Pilot) (w : Option Solid)
    (kb dam_mod : ℚ) :
    (pilot_hit_knockback p w kb dam_mod).armour = p.armour ∧
    (pilot_hit_knockback p w kb dam_mod).shield = p.shield := by
  unfold pilot_hit_knockback
  cases w <;> simp

/-- With zero knockback coefficient the knockback block is the identity. -/
theorem pilot_hit_knockback_zero (p : Pilot) (w : Option Solid)
    (dam_mod : ℚ) : pilot_hit_knockback p w 0 dam_mod = p := by
  unfold pilot_hit_knockback
  cases w <;> simp

/-- C5 (spec-modelled EMP knockback): a hit carrying EMP-type damage on an
already-disabled entity (in a reachable disabled state, i.e. with positive
armour) returns 0 as the real damage and leaves the pilot — armour, shield,
energy, flags and velocity — and the global bookkeeping unchanged, firing
no hook; this holds for every shield/armour damage conversion `ds`, `da`
and every impacting solid. -/
theorem pilot_hit_emp_disabled_noop (p : Pilot) (g : Globals)
    (w : Option Solid) (ds da : ℚ) (shooterPF : Option Bool) (enemies : Bool)
    (powm : ℚ) (hdis : p.flags.disabled = true) (harm : 0 < p.armour) :
    pilot_hit p g w true ds da emp_knockback shooterPF enemies powm
      = ⟨p, g, 0, false, false, 0⟩ := by
  have hdmg : pilot_hit_damage p true ds da = (p, 0, 0) := by
    unfold pilot_hit_damage
    simp [hdis]
  have hdd : pilot_hit_disable p g shooterPF enemies powm = (p, g, false) := by
    unfold pilot_hit_disable
    simp [hdis]
  have hdead1 : (pilot_hit_dead p 0 da shooterPF powm).1 = p := by
    unfold pilot_hit_dead
    rw [if_neg (not_le.mpr harm)]
    split_ifs <;> rfl
  have hdead2 : (pilot_hit_dead p 0 da shooterPF powm).2.2 = (false, 0) := by
    unfold pilot_hit_dead
    rw [if_neg (not_le.mpr harm)]
    split_ifs <;> rfl
  simp only [pilot_hit, hdmg, hdd, hdead1, hdead2, emp_knockback,
    pilot_hit_knockback_zero]

/-- Witness for C5: a concrete disabled pilot hit by an EMP impactor. -/
theorem pilot_hit_emp_disabled_noop_witness :
    (⟨false, 0, 20, 100, 100, 50, 100, 100, ⟨⟨7, 8⟩, 100⟩,
        ⟨true, false, false, false, false, false, false⟩⟩ : Pilot).flags.disabled
      = true ∧
    (0:ℚ) < 20 ∧
    pilot_hit
        ⟨false, 0, 20, 100, 100, 50, 100, 100, ⟨⟨7, 8⟩, 100⟩,
          ⟨true, false, false, false, false, false, false⟩⟩
        ⟨2, 9⟩ (some ⟨⟨3, 4⟩, 10⟩) true 5 7 emp_knockback (some true) true 6
      = ⟨⟨false, 0, 20, 100, 100, 50, 100, 100, ⟨⟨7, 8⟩, 100⟩,
          ⟨true, false, false, false, false, false, false⟩⟩, ⟨2, 9⟩, 0, false, false, 0⟩ :=
  ⟨rfl, by norm_num,
    pilot_hit_emp_disabled_noop _ ⟨2, 9⟩ (some ⟨⟨3, 4⟩, 10⟩) 5 7 (some true) true 6
      rfl (by norm_num)⟩

/-- Bounds for the depletion chain: armour never increases, shield stays in
`[0, shield_max]`. -/
theorem pilot_hit_damage_bounds (p : Pilot) (isEmp : Bool) (ds da : ℚ)
    (hds : 0 ≤ ds) (hda : 0 ≤ da) (hs0 : 0 ≤ p.shield)
    (hs1 : p.shield ≤ p.shield_max) :
    (pilot_hit_damage p isEmp ds da).1.armour ≤ p.armour ∧
    0 ≤ (pilot_hit_damage p isEmp ds da).1.shield ∧
    (pilot_hit_damage p isEmp ds da).1.shield ≤ p.shield_max := by
  unfold pilot_hit_damage
  split_ifs with h1 h2 h3 h4 <;> dsimp only
  · exact ⟨le_refl _, hs0, hs1⟩
  · exact ⟨le_refl _, by linarith, by linarith⟩
  · have hsd : p.shield ≤ ds := by linarith [not_lt.mp h2]
    have hds' : 0 < ds := lt_of_lt_of_le h3 hsd
    have hfrac : p.shield / ds ≤ 1 := (div_le_one hds').mpr hsd
    have : 0 ≤ (1 - p.shield / ds) * da := mul_nonneg (by linarith) hda
    exact ⟨by linarith, le_refl 0, by linarith⟩
  · exact ⟨by linarith, hs0, hs1⟩
  · exact ⟨le_refl _, hs0, hs1⟩

/-- In the spill-over case (shield up but exhausted by the hit) the shield
is set to exactly 0 and the armour takes the proportional remainder. -/
theorem pilot_hit_damage_exhaust (p : Pilot) (isEmp : Bool) (ds da : ℚ)
    (h1 : ¬(p.flags.disabled ∧ isEmp)) (h2 : 0 < p.shield)
    (h3 : p.shield - ds ≤ 0) :
    (pilot_hit_damage p isEmp ds da).1.shield = 0 ∧
    (pilot_hit_damage p isEmp ds da).1.armour
      = p.armour - (1 - p.shield / ds) * da := by
  unfold pilot_hit_damage
  rw [if_neg h1, if_neg (not_lt.mpr h3), if_pos h2]
  exact ⟨rfl, rfl⟩

/-- The armour and shield a pilot ends up with after `pilot_hit`: the
depletion chain's shield value, and its armour value clamped at 0 by the
death block. -/
theorem pilot_hit_health (p : Pilot) (g : Globals) (w : Option Solid)
    (isEmp : Bool) (ds da kb : ℚ) (sh : Option Bool) (en : Bool) (powm : ℚ) :
    (pilot_hit p g w isEmp ds da kb sh en powm).p.armour
        = (if (pilot_hit_damage p isEmp ds da).1.armour ≤ 0 then 0
           else (pilot_hit_damage p isEmp ds da).1.armour) ∧
    (pilot_hit p g w isEmp ds da kb sh en powm).p.shield
        = (pilot_hit_damage p isEmp ds da).1.shield := by
  unfold pilot_hit
  dsimp only
  obtain ⟨ha, hs, _, _, _⟩ :=
    pilot_hit_disable_preserves (pilot_hit_damage p isEmp ds da).1 g sh en powm
  obtain ⟨hda', hds', _⟩ :=
    pilot_hit_dead_armour
      (pilot_hit_disable (pilot_hit_damage p isEmp ds da).1 g sh en powm).1
      (pilot_hit_damage p isEmp ds da).2.2 da sh powm
  obtain ⟨hka, hks⟩ :=
    pilot_hit_knockback_preserves
      (pilot_hit_dead
        (pilot_hit_disable (pilot_hit_damage p isEmp ds da).1 g sh en powm).1
        (pilot_hit_damage p isEmp ds da).2.2 da sh powm).1 w kb
      (pilot_hit_dead
        (pilot_hit_disable (pilot_hit_damage p isEmp ds da).1 g sh en powm).1
        (pilot_hit_damage p isEmp ds da).2.2 da sh powm).2.1
  rw [hka, hks, hda', hds', ha, hs]
  exact ⟨rfl, rfl⟩

/-- C1: for a pilot whose armour and shield start inside `[0, max]` and any
non-negative damage conversion, `pilot_hit` leaves armour in
`[0, armour_max]` and shield in `[0, shield_max]`; moreover the shield is
set to exactly 0 when the hit exhausts it, and the armour is clamped to
exactly 0 when the spill-over would drive it negative. -/
theorem pilot_hit_health_bounds (p : Pilot) (g : Globals) (w : Option Solid)
    (isEmp : Bool) (ds da kb : ℚ) (sh : Option Bool) (en : Bool) (powm : ℚ)
    (hds : 0 ≤ ds) (hda : 0 ≤ da)
    (hs0 : 0 ≤ p.shield) (hs1 : p.shield ≤ p.shield_max)
    (ha0 : 0 ≤ p.armour) (ha1 : p.armour ≤ p.armour_max) :
    (0 ≤ (pilot_hit p g w isEmp ds da kb sh en powm).p.armour ∧
     (pilot_hit p g w isEmp ds da kb sh en powm).p.armour ≤ p.armour_max ∧
     0 ≤ (pilot_hit p g w isEmp ds da kb sh en powm).p.shield ∧
     (pilot_hit p g w isEmp ds da kb sh en powm).p.shield ≤ p.shield_max) ∧
    (¬(p.flags.disabled ∧ isEmp) → 0 < p.shield → p.shield - ds ≤ 0 →
      (pilot_hit p g w isEmp ds da kb sh en powm).p.shield = 0) ∧
    (¬(p.flags.disabled ∧ isEmp) → 0 < p.shield → p.shield - ds ≤ 0 →
      p.armour - (1 - p.shield / ds) * da < 0 →
      (pilot_hit p g w isEmp ds da kb sh en powm).p.armour = 0) := by
  obtain ⟨hA, hS⟩ := pilot_hit_health p g w isEmp ds da kb sh en powm
  obtain ⟨hb1, hb2, hb3⟩ := pilot_hit_damage_bounds p isEmp ds da hds hda hs0 hs1
  refine ⟨⟨?_, ?_, ?_, ?_⟩, ?_, ?_⟩
  · rw [hA]; split_ifs with h
    · exact le_refl 0
    · linarith [not_le.mp h]
  · rw [hA]; split_ifs with h
    · linarith
    · linarith
  · rw [hS]; exact hb2
  · rw [hS]; exact hb3
  · intro h1 h2 h3
    rw [hS]
    exact (pilot_hit_damage_exhaust p isEmp ds da h1 h2 h3).1
  · intro h1 h2 h3 h4
    rw [hA, (pilot_hit_damage_exhaust p isEmp ds da h1 h2 h3).2,
      if_pos (le_of_lt h4)]

/-- Witness for C1: shield 30 of max 100, armour 80 of max 100, hit with
`damage_shield = 50`, `damage_armour = 40`. -/
theorem pilot_hit_health_bounds_witness :
    ((0:ℚ) ≤ 50 ∧ (0:ℚ) ≤ 40 ∧ (0:ℚ) ≤ 30 ∧ (30:ℚ) ≤ 100 ∧
      (0:ℚ) ≤ 80 ∧ (80:ℚ) ≤ 100) ∧
    ((0 ≤ (pilot_hit
        ⟨false, 30, 80, 100, 100, 50, 100, 100, ⟨⟨0, 0⟩, 100⟩,
          ⟨false, false, false, false, false, false, false⟩⟩
        ⟨0, 0⟩ none false 50 40 (1/2) none false 0).p.armour ∧
      (pilot_hit
        ⟨false, 30, 80, 100, 100, 50, 100, 100, ⟨⟨0, 0⟩, 100⟩,
          ⟨false, false, false, false, false, false, false⟩⟩
        ⟨0, 0⟩ none false 50 40 (1/2) none false 0).p.armour ≤ 100 ∧
      0 ≤ (pilot_hit
        ⟨false, 30, 80, 100, 100, 50, 100, 100, ⟨⟨0, 0⟩, 100⟩,
          ⟨false, false, false, false, false, false, false⟩⟩
        ⟨0, 0⟩ none false 50 40 (1/2) none false 0).p.shield ∧
      (pilot_hit
        ⟨false, 30, 80, 100, 100, 50, 100, 100, ⟨⟨0, 0⟩, 100⟩,
          ⟨false, false, false, false, false, false, false⟩⟩
        ⟨0, 0⟩ none false 50 40 (1/2) none false 0).p.shield ≤ 100) ∧
      (¬((false:Bool) ∧ (false:Bool)) → (0:ℚ) < 30 → (30:ℚ) - 50 ≤ 0 →
        (pilot_hit
          ⟨false, 30, 80, 100, 100, 50, 100, 100, ⟨⟨0, 0⟩, 100⟩,
            ⟨false, false, false, false, false, false, false⟩⟩
          ⟨0, 0⟩ none false 50 40 (1/2) none false 0).p.shield = 0)) := by
  have h := pilot_hit_health_bounds
    ⟨false, 30, 80, 100, 100, 50, 100, 100, ⟨⟨0, 0⟩, 100⟩,
      ⟨false, false, false, false, false, false, false⟩⟩
    ⟨0, 0⟩ none false 50 40 (1/2) none false 0
    (by norm_num) (by norm_num) (by norm_num) (by norm_num) (by norm_num)
    (by norm_num)
  exact ⟨⟨by norm_num, by norm_num, by norm_num, by norm_num, by norm_num,
    by norm_num⟩, h.1, h.2.1⟩

/-- The depletion chain touches only shield and armour: flags, player
status and the ship template survive it. -/
theorem pilot_hit_damage_preserves (p : Pilot) (isEmp : Bool) (ds da : ℚ) :
    (pilot_hit_damage p isEmp ds da).1.flags = p.flags ∧
    (pilot_hit_damage p isEmp ds da).1.isPlayer = p.isPlayer ∧
    (pilot_hit_damage p isEmp ds da).1.ship_armour = p.ship_armour := by
  unfold pilot_hit_damage
  split_ifs <;> exact ⟨rfl, rfl, rfl⟩

/-- The death block never touches the disabled and hostile flags. -/
theorem pilot_hit_dead_flags (p : Pilot) (dam_mod da : ℚ)
    (shooterPF : Option Bool) (powm : ℚ) :
    (pilot_hit_dead p dam_mod da shooterPF powm).1.flags.disabled
        = p.flags.disabled ∧
    (pilot_hit_dead p dam_mod da shooterPF powm).1.flags.hostile
        = p.flags.hostile := by
  unfold pilot_hit_dead pilot_dead
  dsimp only
  split_ifs <;> simp_all [apply_ite]

/-- The knockback block never touches the flags. -/
theorem pilot_hit_knockback_flags (p : Pilot) (w : Option Solid)
    (kb dam_mod : ℚ) :
    (pilot_hit_knockback p w kb dam_mod).flags = p.flags := by
  unfold pilot_hit_knockback
  cases w <;> rfl

/-- What the disable block does when its guard fires: sets the disabled
flag, leaves the hostile flag equal to the `pilot_isHostile` test (the
re-targetability hack), decrements and clamps `player_enemies` exactly when
the raw hostile flag was set, credits a player-faction shooter with
`2 * (int)(pow(mass,0.4) - 1)` combat rating, and reports the disable
hook. -/
theorem pilot_hit_disable_fires (p : Pilot) (g : Globals)
    (sh : Option Bool) (en : Bool) (powm : ℚ)
    (h : ¬p.flags.disabled ∧ ¬p.isPlayer ∧
      p.armour < PILOT_DISABLED_ARMOR * p.ship_armour) :
    (pilot_hit_disable p g sh en powm).1.flags.disabled = true ∧
    (pilot_hit_disable p g sh en powm).1.flags.hostile
        = pilot_isHostile p en ∧
    (pilot_hit_disable p g sh en powm).2.1.player_enemies
        = (if p.flags.hostile then
            (if g.player_enemies - 1 ≤ 0 then 0 else g.player_enemies - 1)
           else g.player_enemies) ∧
    (pilot_hit_disable p g sh en powm).2.1.player_crating
        = g.player_crating
            + (if sh = some true then 2 * ctrunc (powm - 1) else 0) ∧
    (pilot_hit_disable p g sh en powm).2.2 = true := by
  have hdis : p.flags.disabled = false := by
    rcases h with ⟨h1, -, -⟩
    simpa using h1
  unfold pilot_hit_disable pilot_rmHostile pilot_isHostile
  rw [if_pos h]
  dsimp only
  rw [hdis]
  split_ifs <;> simp_all

/-- C2 counterexample: a non-disabled pilot with outfit-boosted maximum
armour 200 on a hull of base armour 100, at armour 60, hit for 10 armour
damage.  The post-hit armour 50 is below
`disabledThreshold * maxArmour = 60` (and the pre-hit armour was not), yet
the pilot is not marked disabled and no disable hook fires: the code
compares against `PILOT_DISABLED_ARMOR * p->ship->armour = 30`, the ship
template's base armour, not the entity's `armour_max`. -/
theorem pilot_hit_disable_threshold_counterexample :
    (⟨false, 0, 60, 100, 200, 50, 100, 100, ⟨⟨0, 0⟩, 100⟩,
        ⟨false, false, false, false, false, false, false⟩⟩ : Pilot).flags.disabled
      = false ∧
    (pilot_hit
        ⟨false, 0, 60, 100, 200, 50, 100, 100, ⟨⟨0, 0⟩, 100⟩,
          ⟨false, false, false, false, false, false, false⟩⟩
        ⟨0, 0⟩ none false 0 10 0 none false 0).p.armour = 50 ∧
    ¬((60:ℚ) < PILOT_DISABLED_ARMOR * 200) ∧
    (50:ℚ) < PILOT_DISABLED_ARMOR * 200 ∧
    (pilot_hit
        ⟨false, 0, 60, 100, 200, 50, 100, 100, ⟨⟨0, 0⟩, 100⟩,
          ⟨false, false, false, false, false, false, false⟩⟩
        ⟨0, 0⟩ none false 0 10 0 none false 0).p.flags.disabled = false ∧
    (pilot_hit
        ⟨false, 0, 60, 100, 200, 50, 100, 100, ⟨⟨0, 0⟩, 100⟩,
          ⟨false, false, false, false, false, false, false⟩⟩
        ⟨0, 0⟩ none false 0 10 0 none false 0).disableHook = false := by
  refine ⟨rfl, ?_, by norm_num [PILOT_DISABLED_ARMOR], by norm_num [PILOT_DISABLED_ARMOR], ?_, ?_⟩ <;>
    norm_num [pilot_hit, pilot_hit_damage, pilot_hit_disable, pilot_hit_dead,
      pilot_hit_knockback, pilot_dead, pilot_rmHostile, pilot_isHostile,
      PILOT_DISABLED_ARMOR, ctrunc]

/-- C2 (amended): for every non-player pilot not already disabled whose
armour is driven by the hit below `PILOT_DISABLED_ARMOR` times the ship
template's base armour, `pilot_hit` clears the hostile-to-player
bookkeeping (the `player_enemies` counter is decremented, clamped at 0)
while preserving re-targetability (the hostile flag ends equal to the
`pilot_isHostile` test), credits a player-faction shooter's combat rating
with `2 * (int)(pow(shipMass, 0.4) - 1)`, marks the pilot disabled and
fires the disable hook; and on an already-disabled pilot a further hit
fires no disable hook and leaves the combat bookkeeping untouched. -/
theorem pilot_hit_disable_transition (p : Pilot) (g : Globals)
    (w : Option Solid) (isEmp : Bool) (ds da kb : ℚ) (sh : Option Bool)
    (en : Bool) (powm : ℚ)
    (hnd : p.flags.disabled = false) (hnp : p.isPlayer = false)
    (hbelow : (pilot_hit_damage p isEmp ds da).1.armour
        < PILOT_DISABLED_ARMOR * p.ship_armour) :
    ((pilot_hit p g w isEmp ds da kb sh en powm).p.flags.disabled = true ∧
     (pilot_hit p g w isEmp ds da kb sh en powm).disableHook = true ∧
     (pilot_hit p g w isEmp ds da kb sh en powm).p.flags.hostile
        = pilot_isHostile p en ∧
     (pilot_hit p g w isEmp ds da kb sh en powm).g.player_enemies
        = (if p.flags.hostile then
            (if g.player_enemies - 1 ≤ 0 then 0 else g.player_enemies - 1)
           else g.player_enemies) ∧
     (pilot_hit p g w isEmp ds da kb sh en powm).g.player_crating
        = g.player_crating
            + (if sh = some true then 2 * ctrunc (powm - 1) else 0)) ∧
    (∀ (p' : Pilot) (g' : Globals) (w' : Option Solid) (isEmp' : Bool)
        (ds' da' kb' : ℚ) (sh' : Option Bool) (en' : Bool) (powm' : ℚ),
      p'.flags.disabled = true →
      (pilot_hit p' g' w' isEmp' ds' da' kb' sh' en' powm').disableHook
          = false ∧
      (pilot_hit p' g' w' isEmp' ds' da' kb' sh' en' powm').g = g' ∧
      (pilot_hit p' g' w' isEmp' ds' da' kb' sh' en' powm').p.flags.disabled
          = true) := by
  constructor
  · have hd := pilot_hit_damage_preserves p isEmp ds da
    have hcond : ¬(pilot_hit_damage p isEmp ds da).1.flags.disabled ∧
        ¬(pilot_hit_damage p isEmp ds da).1.isPlayer ∧
        (pilot_hit_damage p isEmp ds da).1.armour
          < PILOT_DISABLED_ARMOR * (pilot_hit_damage p isEmp ds da).1.ship_armour := by
      refine ⟨?_, ?_, ?_⟩
      · rw [hd.1, hnd]; simp
      · rw [hd.2.1, hnp]; simp
      · rw [hd.2.2]; exact hbelow
    have hfire := pilot_hit_disable_fires (pilot_hit_damage p isEmp ds da).1
      g sh en powm hcond
    have hdeadf := pilot_hit_dead_flags
      (pilot_hit_disable (pilot_hit_damage p isEmp ds da).1 g sh en powm).1
      (pilot_hit_damage p isEmp ds da).2.2 da sh powm
    have hkf := pilot_hit_knockback_flags
      (pilot_hit_dead
        (pilot_hit_disable (pilot_hit_damage p isEmp ds da).1 g sh en powm).1
        (pilot_hit_damage p isEmp ds da).2.2 da sh powm).1 w kb
      (pilot_hit_dead
        (pilot_hit_disable (pilot_hit_damage p isEmp ds da).1 g sh en powm).1
        (pilot_hit_damage p isEmp ds da).2.2 da sh powm).2.1
    unfold pilot_hit
    dsimp only
    refine ⟨?_, hfire.2.2.2.2, ?_, ?_, hfire.2.2.2.1⟩
    · rw [hkf, hdeadf.1, hfire.1]
    · rw [hkf, hdeadf.2, hfire.2.1]
      unfold pilot_isHostile
      rw [hd.1]
    · rw [hfire.2.2.1, hd.1]
  · intro p' g' w' isEmp' ds' da' kb' sh' en' powm' hd'
    have hdp := pilot_hit_damage_preserves p' isEmp' ds' da'
    have hno : pilot_hit_disable (pilot_hit_damage p' isEmp' ds' da').1 g'
        sh' en' powm' = ((pilot_hit_damage p' isEmp' ds' da').1, g', false) := by
      unfold pilot_hit_disable
      rw [if_neg]
      rw [hdp.1, hd']
      simp
    have hdeadf := pilot_hit_dead_flags (pilot_hit_damage p' isEmp' ds' da').1
      (pilot_hit_damage p' isEmp' ds' da').2.2 da' sh' powm'
    have hkf := pilot_hit_knockback_flags
      (pilot_hit_dead (pilot_hit_damage p' isEmp' ds' da').1
        (pilot_hit_damage p' isEmp' ds' da').2.2 da' sh' powm').1 w' kb'
      (pilot_hit_dead (pilot_hit_damage p' isEmp' ds' da').1
        (pilot_hit_damage p' isEmp' ds' da').2.2 da' sh' powm').2.1
    unfold pilot_hit
    dsimp only
    rw [hno]
    dsimp only
    refine ⟨rfl, rfl, ?_⟩
    rw [hkf, hdeadf.1, hdp.1, hd']

/-- Witness for C2 at a concrete hostile pilot (hull armour 100, armour 35
hit for 10, crossing below 30) shot by a player-faction shooter with
`pow(mass, 0.4) = 25/4`. -/
theorem pilot_hit_disable_transition_witness :
    ((⟨false, 0, 35, 100, 100, 50, 100, 100, ⟨⟨0, 0⟩, 100⟩,
        ⟨false, true, false, false, false, false, false⟩⟩ : Pilot).flags.disabled
      = false ∧
     (⟨false, 0, 35, 100, 100, 50, 100, 100, ⟨⟨0, 0⟩, 100⟩,
        ⟨false, true, false, false, false, false, false⟩⟩ : Pilot).isPlayer
      = false) ∧
    ((pilot_hit
        ⟨false, 0, 35, 100, 100, 50, 100, 100, ⟨⟨0, 0⟩, 100⟩,
          ⟨false, true, false, false, false, false, false⟩⟩
        ⟨3, 5⟩ none false 0 10 0 (some true) false (25/4)).p.flags.disabled
        = true ∧
     (pilot_hit
        ⟨false, 0, 35, 100, 100, 50, 100, 100, ⟨⟨0, 0⟩, 100⟩,
          ⟨false, true, false, false, false, false, false⟩⟩
        ⟨3, 5⟩ none false 0 10 0 (some true) false (25/4)).disableHook = true ∧
     (pilot_hit
        ⟨false, 0, 35, 100, 100, 50, 100, 100, ⟨⟨0, 0⟩, 100⟩,
          ⟨false, true, false, false, false, false, false⟩⟩
        ⟨3, 5⟩ none false 0 10 0 (some true) false (25/4)).p.flags.hostile
        = pilot_isHostile
            ⟨false, 0, 35, 100, 100, 50, 100, 100, ⟨⟨0, 0⟩, 100⟩,
              ⟨false, true, false, false, false, false, false⟩⟩ false ∧
     (pilot_hit
        ⟨false, 0, 35, 100, 100, 50, 100, 100, ⟨⟨0, 0⟩, 100⟩,
          ⟨false, true, false, false, false, false, false⟩⟩
        ⟨3, 5⟩ none false 0 10 0 (some true) false (25/4)).g.player_enemies
        = (if (⟨false, 0, 35, 100, 100, 50, 100, 100, ⟨⟨0, 0⟩, 100⟩,
              ⟨false, true, false, false, false, false, false⟩⟩ : Pilot).flags.hostile
           then (if (3:ℤ) - 1 ≤ 0 then 0 else (3:ℤ) - 1) else 3) ∧
     (pilot_hit
        ⟨false, 0, 35, 100, 100, 50, 100, 100, ⟨⟨0, 0⟩, 100⟩,
          ⟨false, true, false, false, false, false, false⟩⟩
        ⟨3, 5⟩ none false 0 10 0 (some true) false (25/4)).g.player_crating
        = 5 + (if (some true : Option Bool) = some true
               then 2 * ctrunc ((25:ℚ)/4 - 1) else 0)) := by
  refine ⟨⟨rfl, rfl⟩, (pilot_hit_disable_transition
    ⟨false, 0, 35, 100, 100, 50, 100, 100, ⟨⟨0, 0⟩, 100⟩,
      ⟨false, true, false, false, false, false, false⟩⟩
    ⟨3, 5⟩ none false 0 10 0 (some true) false (25/4) rfl rfl ?_).1⟩
  norm_num [pilot_hit_damage, PILOT_DISABLED_ARMOR]

/-- One scan step is: bump the count and fold the timer into the running
maximum when the slot is an eligible sibling, otherwise skip. -/
theorem scanStep_eq (wo : Outfit) (w s : HSlot) (acc : ℕ × Option ℚ) :
    scanStep wo w acc s =
      if eligibleSibling wo w s then (acc.1 + 1, omax acc.2 s.timer)
      else acc := by
  rcases s with ⟨so, t, ao, aq⟩
  cases so with
  | none => rfl
  | some o =>
    rcases acc with ⟨q, mo⟩
    by_cases h1 : o.delay = wo.delay <;>
      by_cases h2 : wo.kind = OutfitKind.launcher <;>
        cases hao : w.ammoOutfit <;>
          by_cases h4 : w.ammoQty ≤ 0 <;>
            cases mo <;>
              simp [scanStep, eligibleSibling, omax, h1, h2, hao, h4]

/-- The sibling scan computes the size of the eligible-delay group and the
maximum cooldown timer within it. -/
theorem weaponScan_eq_filter (wo : Outfit) (w : HSlot) (highs : List HSlot) :
    weaponScan wo w highs
      = ((highs.filter (eligibleSibling wo w)).length,
         ((highs.filter (eligibleSibling wo w)).map (·.timer)).foldl omax none) := by
  suffices h : ∀ acc : ℕ × Option ℚ,
      highs.foldl (scanStep wo w) acc
        = (acc.1 + (highs.filter (eligibleSibling wo w)).length,
           ((highs.filter (eligibleSibling wo w)).map (·.timer)).foldl omax acc.2) by
    simpa using h (0, none)
  induction highs with
  | nil => intro acc; simp
  | cons s ss ih =>
    intro acc
    rw [List.foldl_cons, scanStep_eq]
    by_cases he : eligibleSibling wo w s = true
    · rw [if_pos he, ih, List.filter_cons_of_pos he]
      simp only [List.length_cons, List.map_cons, List.foldl_cons]
      exact Prod.ext (by omega) rfl
    · rw [if_neg he, ih, List.filter_cons_of_neg (by simpa using he)]

/-- Folding `omax` from a seed yields an upper bound of the seed and every
element. -/
theorem foldl_omax_some (ts : List ℚ) : ∀ m0 : ℚ,
    ∃ m, ts.foldl omax (some m0) = some m ∧ m0 ≤ m ∧ ∀ t ∈ ts, t ≤ m := by
  induction ts with
  | nil => exact fun m0 => ⟨m0, rfl, le_refl _, by simp⟩
  | cons t ts ih =>
    intro m0
    obtain ⟨m, hm, hle, hub⟩ := ih (if m0 < t then t else m0)
    refine ⟨m, by simpa [omax] using hm, ?_, ?_⟩
    · refine le_trans ?_ hle
      split_ifs with h
      · exact le_of_lt h
      · exact le_refl _
    · intro u hu
      rcases List.mem_cons.mp hu with h | h
      · subst h
        refine le_trans ?_ hle
        split_ifs with h
        · exact le_refl _
        · exact not_lt.mp h
      · exact hub u h

/-- Folding `omax` over a non-empty list yields an upper bound of the
list. -/
theorem foldl_omax_ne_nil (ts : List ℚ) (h : ts ≠ []) :
    ∃ m, ts.foldl omax none = some m ∧ ∀ t ∈ ts, t ≤ m := by
  cases ts with
  | nil => exact absurd rfl h
  | cons t ts =>
    obtain ⟨m, hm, hle, hub⟩ := foldl_omax_some ts t
    refine ⟨m, by simpa [omax] using hm, ?_⟩
    intro u hu
    rcases List.mem_cons.mp hu with h | h
    · exact h ▸ hle
    · exact hub u h

/-- C4 counterexample data plus C4 (amended): a non-beam slot fires only
when its own cooldown has expired and every slot in its delay group —
in particular the most recently fired one — has at most
`delay * (q-1)/q` cooldown left (equivalently, the most recently fired
sibling fired at least `delay/q`, not `delay * (q-1)/q`, time units ago);
and two delay-1.0 bolt slots driven at `dt = 0.1` fire staggered 0.5 s
apart, each with period 1.0 s, not synchronously. -/
theorem pilot_shootWeapon_rationing (wo : Outfit) (w : HSlot)
    (highs : List HSlot) (hnb : wo.kind ≠ OutfitKind.beam)
    (hfire : pilot_shootWeapon_gate wo w highs = true) :
    (w.timer ≤ 0 ∧
     highs.filter (eligibleSibling wo w) ≠ [] ∧
     ∀ s ∈ highs.filter (eligibleSibling wo w),
       s.timer ≤ wo.delay *
         ((((highs.filter (eligibleSibling wo w)).length : ℚ) - 1) /
          ((highs.filter (eligibleSibling wo w)).length : ℚ))) ∧
    (boltSim bolt1 100 (1/10) [0, 0] 20).2
      = (List.range 21).map (fun n => [decide (n % 10 = 0), decide (n % 10 = 5)]) := by
  constructor
  · unfold pilot_shootWeapon_gate at hfire
    by_cases hw : 0 < w.timer
    · rw [if_pos hw] at hfire
      exact absurd hfire (by simp)
    rw [if_neg hw, if_neg hnb] at hfire
    dsimp only at hfire
    rw [weaponScan_eq_filter] at hfire
    cases hfl : highs.filter (eligibleSibling wo w) with
    | nil => rw [hfl] at hfire; simp at hfire
    | cons s0 ss =>
      rw [hfl] at hfire
      obtain ⟨m, hm, hub⟩ := foldl_omax_ne_nil ((s0 :: ss).map (·.timer)) (by simp)
      rw [if_neg (by simp)] at hfire
      rw [hm] at hfire
      simp only [decide_eq_true_eq, not_lt] at hfire
      refine ⟨not_lt.mp hw, by simp, ?_⟩
      intro s hs
      exact le_trans (hub s.timer (List.mem_map_of_mem (·.timer) hs)) hfire
  · have hb : (OutfitKind.bolt = OutfitKind.beam) = False := by simp
    have hl : (OutfitKind.bolt = OutfitKind.launcher) = False := by simp
    norm_num [boltSim, shootVolley, decTimers, pilot_shootWeapon_gate,
      weaponScan, scanStep, bolt1, List.range_succ, hb, hl]

/-- C4 counterexample: three delay-1.0 bolt slots (group size `q = 3`)
started together at `dt = 0.1`.  Slot 0 fires at tick 0 and slot 1 already
fires at tick 4 — only `4 * 0.1 = 0.4` time units after the most recently
fired sibling, which is not more than `delay * (q-1)/q = 2/3`: the code
gates on the sibling's remaining cooldown (`mint ≤ delay * (q-1)/q`), i.e.
an elapsed time of only `delay/q`. -/
theorem pilot_shootWeapon_rationing_counterexample :
    (boltSim bolt1 100 (1/10) [0, 0, 0] 4).2
      = [[true, false, false], [false, false, false], [false, false, false],
         [false, false, false], [false, true, false]] ∧
    ¬(bolt1.delay * (((3:ℚ) - 1) / 3) < 4 * (1/10)) := by
  constructor
  · have hb : (OutfitKind.bolt = OutfitKind.beam) = False := by simp
    have hl : (OutfitKind.bolt = OutfitKind.launcher) = False := by simp
    norm_num [boltSim, shootVolley, decTimers, pilot_shootWeapon_gate,
      weaponScan, scanStep, bolt1, List.range_succ, hb, hl]
  · norm_num [bolt1]

/-- Witness for C4 (amended) with two ready delay-1.0 bolt slots. -/
theorem pilot_shootWeapon_rationing_witness :
    (bolt1.kind ≠ OutfitKind.beam ∧
     pilot_shootWeapon_gate bolt1 ⟨some bolt1, 0, false, 0⟩
       [⟨some bolt1, 0, false, 0⟩, ⟨some bolt1, 0, false, 0⟩] = true) ∧
    ((⟨some bolt1, 0, false, 0⟩ : HSlot).timer ≤ 0 ∧
     [⟨some bolt1, 0, false, 0⟩,
       ⟨some bolt1, 0, false, 0⟩].filter (eligibleSibling bolt1 ⟨some bolt1, 0, false, 0⟩) ≠ [] ∧
     ∀ s ∈ [⟨some bolt1, 0, false, 0⟩,
       ⟨some bolt1, 0, false, 0⟩].filter (eligibleSibling bolt1 ⟨some bolt1, 0, false, 0⟩),
       s.timer ≤ bolt1.delay *
         (((([⟨some bolt1, 0, false, 0⟩,
             ⟨some bolt1, 0, false, 0⟩].filter
               (eligibleSibling bolt1 ⟨some bolt1, 0, false, 0⟩)).length : ℚ) - 1) /
          (([⟨some bolt1, 0, false, 0⟩,
             ⟨some bolt1, 0, false, 0⟩].filter
               (eligibleSibling bolt1 ⟨some bolt1, 0, false, 0⟩)).length : ℚ))) ∧
    (boltSim bolt1 100 (1/10) [0, 0] 20).2
      = (List.range 21).map (fun n => [decide (n % 10 = 0), decide (n % 10 = 5)]) := by
  have hb : (OutfitKind.bolt = OutfitKind.beam) = False := by simp
  have hl : (OutfitKind.bolt = OutfitKind.launcher) = False := by simp
  have hg : pilot_shootWeapon_gate bolt1 ⟨some bolt1, 0, false, 0⟩
      [⟨some bolt1, 0, false, 0⟩, ⟨some bolt1, 0, false, 0⟩] = true := by
    norm_num [pilot_shootWeapon_gate, weaponScan, scanStep, bolt1, hb, hl]
  have h := pilot_shootWeapon_rationing bolt1 ⟨some bolt1, 0, false, 0⟩
    [⟨some bolt1, 0, false, 0⟩, ⟨some bolt1, 0, false, 0⟩] (by simp [bolt1]) hg
  exact ⟨⟨by simp [bolt1], hg⟩, h.1, h.2⟩

/-- In a strictly sorted id list, entries at smaller positions are
smaller. -/
theorem sorted_getD_le (ids : List ℕ) (hsort : List.Sorted (· < ·) ids)
    (i j : ℕ) (hij : i ≤ j) (hj : j < ids.length) :
    ids.getD i 0 ≤ ids.getD j 0 := by
  rcases eq_or_lt_of_le hij with rfl | hlt
  · exact le_refl _
  · have hi : i < ids.length := lt_trans hlt hj
    rw [List.getD_eq_getElem ids 0 hi, List.getD_eq_getElem ids 0 hj]
    exact le_of_lt (List.pairwise_iff_getElem.mp hsort i j hi hj hlt)

/-- Correctness of the binary-search loop of `pilot_getStackPos` on a
strictly sorted id list: under the loop invariant (everything left of `l`
is smaller than `id`, everything right of `h` is bigger), the search finds
the position of `id` or returns `-1` when `id` is absent. -/
theorem pilot_getStackPos_go_correct (ids : List ℕ) (id : ℕ)
    (hsort : List.Sorted (· < ·) ids) :
    ∀ (n : ℕ) (l h : ℤ), (h + 1 - l).toNat = n → 0 ≤ l →
    h < (ids.length : ℤ) →
    (∀ i : ℕ, i < ids.length → (i : ℤ) < l → ids.getD i 0 < id) →
    (∀ i : ℕ, i < ids.length → h < (i : ℤ) → id < ids.getD i 0) →
    ((id ∈ ids → ∃ m : ℕ, pilot_getStackPos_go ids id l h = (m : ℤ) ∧
        ids.getD m 0 = id ∧ m < ids.length) ∧
     (id ∉ ids → pilot_getStackPos_go ids id l h = -1)) := by
  intro n
  induction n using Nat.strong_induction_on with
  | _ n ih =>
    intro l h hn hl hh hlow hhigh
    rw [pilot_getStackPos_go]
    split_ifs with hlh
    · have hm1 : l ≤ (l + h) / 2 := by omega
      have hm2 : (l + h) / 2 ≤ h := by omega
      have hmlen : ((l + h) / 2).toNat < ids.length := by omega
      have hmcast : ((((l + h) / 2).toNat : ℕ) : ℤ) = (l + h) / 2 := by omega
      have hsome : ids[((l + h) / 2).toNat]?
          = some (ids.getD ((l + h) / 2).toNat 0) := by
        rw [List.getElem?_eq_getElem hmlen, List.getD_eq_getElem ids 0 hmlen]
      dsimp only
      rw [hsome]
      dsimp only
      by_cases hlt : id < ids.getD ((l + h) / 2).toNat 0
      · rw [if_pos hlt]
        refine ih ((l + h) / 2 - 1 + 1 - l).toNat (by omega) l ((l + h) / 2 - 1)
          rfl hl (by omega) hlow ?_
        intro i hi hgt
        by_cases him : h < (i : ℤ)
        · exact hhigh i hi him
        · have hmi : ((l + h) / 2).toNat ≤ i := by omega
          have := sorted_getD_le ids hsort ((l + h) / 2).toNat i hmi hi
          omega
      · by_cases hgt : ids.getD ((l + h) / 2).toNat 0 < id
        · rw [if_neg hlt, if_pos hgt]
          refine ih (h + 1 - ((l + h) / 2 + 1)).toNat (by omega)
            ((l + h) / 2 + 1) h rfl (by omega) hh ?_ hhigh
          intro i hi hcase
          by_cases him : (i : ℤ) < l
          · exact hlow i hi him
          · have hmi : i ≤ ((l + h) / 2).toNat := by omega
            have := sorted_getD_le ids hsort i ((l + h) / 2).toNat hmi hmlen
            omega
        · rw [if_neg hlt, if_neg hgt]
          have heq : ids.getD ((l + h) / 2).toNat 0 = id := by omega
          have hmem : id ∈ ids := by
            rw [← heq, List.getD_eq_getElem ids 0 hmlen]
            exact List.getElem_mem hmlen
          exact ⟨fun _ => ⟨((l + h) / 2).toNat, by omega, heq, hmlen⟩,
            fun hno => absurd hmem hno⟩
    · have hnone : id ∉ ids := by
        intro hmem
        obtain ⟨i, hi, hgi⟩ := List.mem_iff_getElem.mp hmem
        have hgd : ids.getD i 0 = id := by
          rw [List.getD_eq_getElem ids 0 hi, hgi]
        by_cases hcase : (i : ℤ) < l
        · have := hlow i hi hcase; omega
        · have := hhigh i hi (by omega); omega
      exact ⟨fun hmem => absurd hmem hnone, fun _ => rfl⟩

/-- Every reachable registry state is strictly sorted and dominated by the
id counter. -/
theorem reach_sorted {r : Registry} (hr : Reach r) :
    List.Sorted (· < ·) r.stack ∧ ∀ x ∈ r.stack, x ≤ r.counter := by
  induction hr with
  | init =>
    refine ⟨List.sorted_singleton _, ?_⟩
    intro x hx
    rw [List.mem_singleton.mp hx]
  | create hr ih =>
    refine ⟨?_, ?_⟩
    · refine List.pairwise_append.mpr ⟨ih.1, List.pairwise_singleton _ _, ?_⟩
      intro x hx y hy
      rw [List.mem_singleton.mp hy]
      exact lt_of_le_of_lt (ih.2 x hx) (Nat.lt_succ_self _)
    · intro x hx
      rcases List.mem_append.mp hx with hx | hx
      · exact le_trans (ih.2 x hx) (Nat.le_succ _)
      · rw [List.mem_singleton.mp hx]
        exact le_of_eq rfl
  | destroy hr hmem ih =>
    exact ⟨ih.1.sublist (List.erase_sublist _ _),
      fun x hx => ih.2 x (List.mem_of_mem_erase hx)⟩
  | clean hr hmem ih =>
    refine ⟨List.sorted_singleton _, ?_⟩
    intro x hx
    rw [List.mem_singleton.mp hx]
    exact ih.2 _ hmem

/-- C8: in every reachable registry state the backing array is strictly
sorted by id (so ids are unique), creation appends an entry whose
counter-generated id strictly exceeds every live id, id-based destruction
keeps sortedness under the one-slot compaction, the bulk cleanup with the
player present leaves the single-element array `[PLAYER_ID]`, and the
binary search `pilot_getStackPos` returns the position of the unique entry
holding a given id, or `-1` when no live entity has it. -/
theorem pilot_registry_sorted_lookup (r : Registry) (hr : Reach r) (id : ℕ) :
    List.Sorted (· < ·) r.stack ∧
    r.stack.Nodup ∧
    (∀ x ∈ r.stack, x < (registry_create r).counter) ∧
    (registry_create r).stack = r.stack ++ [(registry_create r).counter] ∧
    List.Sorted (· < ·) (registry_create r).stack ∧
    (∀ pid : ℕ, List.Sorted (· < ·) (registry_destroy r pid).stack) ∧
    (PLAYER_ID ∈ r.stack → (registry_clean r).stack = [PLAYER_ID]) ∧
    (id ∈ r.stack → ∃ m : ℕ, pilot_getStackPos r.stack id = (m : ℤ) ∧
        r.stack.getD m 0 = id ∧ m < r.stack.length) ∧
    (id ∉ r.stack → pilot_getStackPos r.stack id = -1) := by
  obtain ⟨hsort, hbound⟩ := reach_sorted hr
  have hsearch := pilot_getStackPos_go_correct r.stack id hsort
    ((r.stack.length : ℤ) - 1 + 1 - 0).toNat 0 ((r.stack.length : ℤ) - 1)
    rfl (le_refl 0) (by omega) (fun i _ hi => absurd hi (by omega))
    (fun i hi hgt => absurd hgt (by omega))
  have hcreate := (reach_sorted (Reach.create hr)).1
  refine ⟨hsort, hsort.nodup, ?_, rfl, hcreate, ?_, fun _ => rfl, ?_, ?_⟩
  · intro x hx
    exact Nat.lt_succ_of_le (hbound x hx)
  · intro pid
    exact hsort.sublist (List.erase_sublist _ _)
  · exact hsearch.1
  · exact hsearch.2

/-- Witness for C8 at the initial registry (player only) and the player
id. -/
theorem pilot_registry_sorted_lookup_witness :
    List.Sorted (· < ·) (Registry.mk [PLAYER_ID] PLAYER_ID).stack ∧
    (Registry.mk [PLAYER_ID] PLAYER_ID).stack.Nodup ∧
    (∀ x ∈ (Registry.mk [PLAYER_ID] PLAYER_ID).stack,
      x < (registry_create (Registry.mk [PLAYER_ID] PLAYER_ID)).counter) ∧
    (registry_create (Registry.mk [PLAYER_ID] PLAYER_ID)).stack
      = (Registry.mk [PLAYER_ID] PLAYER_ID).stack
          ++ [(registry_create (Registry.mk [PLAYER_ID] PLAYER_ID)).counter] ∧
    List.Sorted (· < ·)
      (registry_create (Registry.mk [PLAYER_ID] PLAYER_ID)).stack ∧
    (∀ pid : ℕ, List.Sorted (· < ·)
      (registry_destroy (Registry.mk [PLAYER_ID] PLAYER_ID) pid).stack) ∧
    (PLAYER_ID ∈ (Registry.mk [PLAYER_ID] PLAYER_ID).stack →
      (registry_clean (Registry.mk [PLAYER_ID] PLAYER_ID)).stack = [PLAYER_ID]) ∧
    (PLAYER_ID ∈ (Registry.mk [PLAYER_ID] PLAYER_ID).stack →
      ∃ m : ℕ,
        pilot_getStackPos (Registry.mk [PLAYER_ID] PLAYER_ID).stack PLAYER_ID
            = (m : ℤ) ∧
        (Registry.mk [PLAYER_ID] PLAYER_ID).stack.getD m 0 = PLAYER_ID ∧
        m < (Registry.mk [PLAYER_ID] PLAYER_ID).stack.length) ∧
    (PLAYER_ID ∉ (Registry.mk [PLAYER_ID] PLAYER_ID).stack →
      pilot_getStackPos (Registry.mk [PLAYER_ID] PLAYER_ID).stack PLAYER_ID
        = -1) :=
  pilot_registry_sorted_lookup ⟨[PLAYER_ID], PLAYER_ID⟩ Reach.init PLAYER_ID

end Naev
